import Mathlib

/-!
# Verification of timesync-mini (Rust SNTP client)

Shallow embedding of `src/rust/src/main.rs`.  Machine integers are modelled
as `Nat`/`Int` with explicit reductions modulo `2 ^ 64` where the Rust code
performs `u64`/`i64` arithmetic that could wrap, and `checked_add` is
modelled as a range test.  I/O-dependent values (received datagrams, socket
errors, the calendar year chrono derives from a millisecond value in the
local timezone) are passed in as explicit parameters, so every run of the
program corresponds to a choice of those parameters.
-/

namespace Timesync

/-- `i64` range predicate: `-(2^63) ≤ x < 2^63`. -/
def in_i64 (x : Int) : Prop := -(2 ^ 63) ≤ x ∧ x < 2 ^ 63

instance (x : Int) : Decidable (in_i64 x) := by unfold in_i64; infer_instance

/-- Two's-complement wrap of an arbitrary integer into the `i64` range,
the semantics of Rust release-mode `i64` overflow. -/
def wrap_i64 (x : Int) : Int := (x + 2 ^ 63) % 2 ^ 64 - 2 ^ 63

/-- `i64::checked_add` (main.rs lines 336 and 442): `some` exactly when the
mathematical sum is representable. -/
def checked_add_i64 (a b : Int) : Option Int :=
  if -(2 ^ 63) ≤ a + b ∧ a + b < 2 ^ 63 then some (a + b) else none

/-- `i64::abs` under release-mode semantics: `abs` of the minimum value
wraps back to itself; elsewhere it is the mathematical absolute value. -/
def abs_i64 (x : Int) : Int := wrap_i64 |x|

/-- `u64 as i64` cast: value-preserving below `2^63`, otherwise shifted
down by `2^64`. -/
def u64_as_i64 (x : Nat) : Int :=
  if x < 2 ^ 63 then (x : Int) else (x : Int) - 2 ^ 64

/-- `u32::from_be_bytes` on four byte values. -/
def be32 (b0 b1 b2 b3 : Nat) : Nat :=
  ((b0 * 256 + b1) * 256 + b2) * 256 + b3

/-- `NTP_UNIX_EPOCH_DIFF` (main.rs line 23). -/
def NTP_UNIX_EPOCH_DIFF : Nat := 2208988800

/-- `(frac * 1_000_000) >> 32` on `u64` (main.rs line 83), with the
multiplication reduced mod `2^64` as `u64` arithmetic would. -/
def usec_of_frac (frac : Nat) : Nat := frac * 1000000 % 2 ^ 64 / 2 ^ 32

/-- `ntp_ts_to_unix_ms` (main.rs lines 71-86): decode an 8-byte big-endian
NTP fixed-point timestamp to Unix milliseconds.  The byte list models the
`&[u8]` slice; all arithmetic is `u64` followed by an `as i64` cast. -/
def ntp_ts_to_unix_ms (buf : List Nat) : Option Int :=
  if buf.length < 8 then none
  else
    let sec := be32 (buf.getD 0 0) (buf.getD 1 0) (buf.getD 2 0) (buf.getD 3 0)
    let frac := be32 (buf.getD 4 0) (buf.getD 5 0) (buf.getD 6 0) (buf.getD 7 0)
    if sec < NTP_UNIX_EPOCH_DIFF then none
    else
      let usec := usec_of_frac frac
      let unix_sec := sec - NTP_UNIX_EPOCH_DIFF
      some (u64_as_i64 ((unix_sec * 1000 + usec / 1000) % 2 ^ 64))

/-- `build_ntp_request` (main.rs lines 64-69): a zeroed 48-byte packet with
byte 0 set to `0x23` (LI=0, VN=4, Mode=3).  No other byte is written; in
particular no transmit timestamp is stored. -/
def build_ntp_request : List Nat := (List.replicate 48 0).set 0 0x23

/-- Reply validation from `do_ntp_query` (main.rs lines 131-162): the
48-byte receive buffer is modelled by `buf` (zero-initialised, so reading
past the received bytes yields 0, matching `getD _ 0`), `size` is the
`recv_from` byte count.  Returns the decoded remote transmit time in Unix
ms, or `none` on any validation failure (`continue` in the source).
Bit operations on byte 0: `& 0x07` is `% 8`, `>> 3` is `/ 8`. -/
def decode_reply (size : Nat) (buf : List Nat) : Option Int :=
  if size < 48 then none
  else if buf.getD 0 0 % 8 ≠ 4 then none
  else if buf.getD 1 0 = 0 then none
  else if ¬(1 ≤ buf.getD 0 0 / 8 % 8 ∧ buf.getD 0 0 / 8 % 8 ≤ 4) then none
  else
    ntp_ts_to_unix_ms
      [buf.getD 40 0, buf.getD 41 0, buf.getD 42 0, buf.getD 43 0,
       buf.getD 44 0, buf.getD 45 0, buf.getD 46 0, buf.getD 47 0]

/-- The three values `do_ntp_query` returns on success (struct
`NtpResponse`, main.rs lines 52-57; the peer address string is irrelevant
to the claims and omitted). -/
structure NtpResponse where
  local_before_ms : Int
  remote_ms : Int
  local_after_ms : Int
deriving DecidableEq, Repr

/-- What happened at one candidate address inside `do_ntp_query`:
either a socket-level failure (bind / set timeout / send / recv, each a
`continue`), or a datagram of `size` bytes landed in the zero-initialised
48-byte buffer, bracketed by the two `SystemTime::now()` samples (already
converted by `system_time_to_ms`, which yields `none` for a pre-epoch
time). -/
inductive AddrOutcome where
  | sockFail
  | recv (size : Nat) (buf : List Nat) (beforeMs afterMs : Option Int)

/-- Processing of one address attempt (main.rs lines 106-179): socket
failures and every validation failure `continue` to the next address. -/
def try_addr : AddrOutcome → Option NtpResponse
  | .sockFail => none
  | .recv size buf beforeMs afterMs =>
    match decode_reply size buf with
    | none => none
    | some remote =>
      match beforeMs, afterMs with
      | some b, some a => some ⟨b, remote, a⟩
      | _, _ => none

/-- The `for addr in addrs` loop of `do_ntp_query`: first fully validated
reply wins, otherwise the whole call fails. -/
def query_addrs : List AddrOutcome → Option NtpResponse
  | [] => none
  | a :: rest =>
    match try_addr a with
    | some r => some r
    | none => query_addrs rest

/-- One call to `do_ntp_query` (main.rs lines 95-182).  The call begins by
resolving the server name: `none` models a `to_socket_addrs` error, and
`some addrs` the resolved candidate list (empty means `No addresses
found`); in every failure case the call returns `Err` to the caller. -/
def do_ntp_query (resolution : Option (List AddrOutcome)) : Option NtpResponse :=
  match resolution with
  | none => none
  | some addrs => query_addrs addrs

/-- The retry loop of `main` (lines 298-317): one `do_ntp_query` call per
attempt, stopping at the first success.  `envs` holds one environment per
configured attempt, so `envs.length` is the retry count. -/
def run_query_loop : List (Option (List AddrOutcome)) → Option NtpResponse
  | [] => none
  | env :: rest =>
    match do_ntp_query env with
    | some r => some r
    | none => run_query_loop rest

/-- Number of `do_ntp_query` calls the retry loop executes.  Each call
performs exactly one name resolution (`to_socket_addrs`, main.rs lines
96-100), so this also counts the name resolutions of a run. -/
def resolutions_performed : List (Option (List AddrOutcome)) → Nat
  | [] => 0
  | env :: rest =>
    match do_ntp_query env with
    | some _ => 1
    | none => 1 + resolutions_performed rest

/-- Outcome of the post-query part of `main` (lines 333-480). -/
inductive MainOutcome where
  | overflowAvg
  | delayOutOfRange
  | belowThreshold
  | yearParseFailed
  | yearOutOfRange
  | dryRun
  | notPrivileged
  | overflowTarget
  | adjust (target : Int)
deriving DecidableEq, Repr

/-- `(delay, offset)` as computed by main.rs lines 336-348:
`avg = (local_before + local_after) / 2` guarded by `checked_add`,
`offset = remote - avg`, `roundtrip = local_after - local_before`
(plain `i64` subtractions, hence wrapped). -/
def compute_offsets (lb remote la : Int) : Option (Int × Int) :=
  match checked_add_i64 lb la with
  | none => none
  | some sum =>
    some (wrap_i64 (la - lb), wrap_i64 (remote - Int.tdiv sum 2))

/-- The decision sequence of `main` after a successful query (lines
336-453), in source order: average-overflow check, round-trip sanity
check, adjustment threshold, remote-year parse and range check, test-only
(`-n`) exit, root check, target-time overflow check, then the clock
write.  `year` is the calendar year chrono derives from `remote` in the
local timezone (`none` when `timestamp_millis_opt` is not `Single`);
`test_only` and `is_root` model the flag and the `getuid()==0` test. -/
def decide_adjust (lb la remote : Int) (year : Option Int)
    (test_only is_root : Bool) : MainOutcome :=
  match checked_add_i64 lb la with
  | none => .overflowAvg
  | some sum =>
    if wrap_i64 (la - lb) < 0 ∨ 10000 < wrap_i64 (la - lb) then .delayOutOfRange
    else if 0 < abs_i64 (wrap_i64 (remote - Int.tdiv sum 2)) ∧
            abs_i64 (wrap_i64 (remote - Int.tdiv sum 2)) < 500 then .belowThreshold
    else
      match year with
      | none => .yearParseFailed
      | some y =>
        if y < 2025 ∨ 2200 < y then .yearOutOfRange
        else if test_only then .dryRun
        else if is_root = false then .notPrivileged
        else
          match checked_add_i64 remote (Int.tdiv (wrap_i64 (la - lb)) 2) with
          | none => .overflowTarget
          | some t => .adjust t

/-- Process exit code of each outcome (main.rs `process::exit` calls);
`write_ok` is whether `set_system_time` succeeds on the adjust path. -/
def main_exit (m : MainOutcome) (write_ok : Bool) : Nat :=
  match m with
  | .overflowAvg => 1
  | .delayOutOfRange => 1
  | .belowThreshold => 0
  | .yearParseFailed => 1
  | .yearOutOfRange => 1
  | .dryRun => 0
  | .notPrivileged => 0
  | .overflowTarget => 1
  | .adjust _ => if write_ok then 0 else 10

/-- Whether the outcome reaches the `set_system_time` call. -/
def writes_clock : MainOutcome → Bool
  | .adjust _ => true
  | _ => false

/-- Result of a whole run: either the retry loop exhausts every attempt
(main.rs line 330, `process::exit(2)`), or the post-query decision runs. -/
inductive RunResult where
  | queryExhausted
  | afterQuery (m : MainOutcome)
deriving DecidableEq, Repr

/-- A whole run of `main`: the retry loop followed by the decision
sequence.  `yearOf` models chrono's ms-to-local-calendar-year map. -/
def run_main (envs : List (Option (List AddrOutcome)))
    (yearOf : Int → Option Int) (test_only is_root : Bool) : RunResult :=
  match run_query_loop envs with
  | none => .queryExhausted
  | some resp =>
    .afterQuery (decide_adjust resp.local_before_ms resp.local_after_ms
      resp.remote_ms (yearOf resp.remote_ms) test_only is_root)

/-- Exit code of a whole run. -/
def run_exit (r : RunResult) (write_ok : Bool) : Nat :=
  match r with
  | .queryExhausted => 2
  | .afterQuery m => main_exit m write_ok

/-- Whether a whole run reaches the clock write. -/
def run_writes_clock : RunResult → Bool
  | .queryExhausted => false
  | .afterQuery m => writes_clock m

/-- The spec's one-step fraction-to-milliseconds conversion,
`(frac * 1000) >> 32` (spec §4.2 `from_fixed_point`).  Modelled from the
spec's words for comparison against the source's two-step computation. -/
def frac_ms_spec (frac : Nat) : Nat := frac * 1000 / 2 ^ 32

/-- An address outcome that is either a socket failure or a datagram whose
mode field (low 3 bits of byte 0) differs from 4 — the fake-server
scenario of the query-exhaustion claim. -/
def mode_not4 : AddrOutcome → Bool
  | .sockFail => true
  | .recv _ buf _ _ => buf.getD 0 0 % 8 != 4

/-! ## Helper lemmas about the machine-integer model -/

lemma wrap_i64_eq_self {x : Int} (h : in_i64 x) : wrap_i64 x = x := by
  unfold wrap_i64
  unfold in_i64 at h
  norm_num at h ⊢
  omega

lemma in_i64_wrap_i64 (x : Int) : in_i64 (wrap_i64 x) := by
  unfold wrap_i64 in_i64
  norm_num
  omega

lemma checked_add_i64_eq_some {a b : Int} (h : in_i64 (a + b)) :
    checked_add_i64 a b = some (a + b) := by
  unfold checked_add_i64
  exact if_pos h

lemma checked_add_i64_eq_none {a b : Int} (h : ¬ in_i64 (a + b)) :
    checked_add_i64 a b = none := by
  unfold checked_add_i64
  exact if_neg h

lemma abs_i64_eq_abs {x : Int} (h : |x| < 2 ^ 63) : abs_i64 x = |x| :=
  wrap_i64_eq_self ⟨le_trans (by norm_num) (abs_nonneg x), h⟩

lemma abs_i64_zero : abs_i64 0 = 0 := by decide

/-- `ntp_ts_to_unix_ms` on an explicit 8-byte list, written out. -/
lemma ntp_ts_explicit (b0 b1 b2 b3 b4 b5 b6 b7 : Nat) :
    ntp_ts_to_unix_ms [b0, b1, b2, b3, b4, b5, b6, b7] =
      if be32 b0 b1 b2 b3 < NTP_UNIX_EPOCH_DIFF then none
      else some (u64_as_i64 (((be32 b0 b1 b2 b3 - NTP_UNIX_EPOCH_DIFF) * 1000 +
        usec_of_frac (be32 b4 b5 b6 b7) / 1000) % 2 ^ 64)) := rfl

/-- `decide_adjust` once the average is known not to overflow. -/
lemma decide_adjust_some (lb la remote : Int) (year : Option Int)
    (t r : Bool) (hsum : in_i64 (lb + la)) :
    decide_adjust lb la remote year t r =
      if wrap_i64 (la - lb) < 0 ∨ 10000 < wrap_i64 (la - lb) then
        .delayOutOfRange
      else if 0 < abs_i64 (wrap_i64 (remote - Int.tdiv (lb + la) 2)) ∧
          abs_i64 (wrap_i64 (remote - Int.tdiv (lb + la) 2)) < 500 then
        .belowThreshold
      else
        match year with
        | none => .yearParseFailed
        | some y =>
          if y < 2025 ∨ 2200 < y then .yearOutOfRange
          else if t then .dryRun
          else if r = false then .notPrivileged
          else
            match checked_add_i64 remote (Int.tdiv (wrap_i64 (la - lb)) 2) with
            | none => .overflowTarget
            | some tgt => .adjust tgt := by
  unfold decide_adjust
  rw [checked_add_i64_eq_some hsum]

lemma try_addr_eq_none_of_mode_not4 (a : AddrOutcome)
    (h : mode_not4 a = true) : try_addr a = none := by
  cases a with
  | sockFail => rfl
  | recv size buf beforeMs afterMs =>
    unfold mode_not4 at h
    rw [bne_iff_ne] at h
    have hd : decode_reply size buf = none := by
      unfold decode_reply
      by_cases h1 : size < 48
      · rw [if_pos h1]
      · rw [if_neg h1, if_pos h]
    simp only [try_addr, hd]

lemma query_addrs_eq_none (addrs : List AddrOutcome)
    (h : ∀ a ∈ addrs, mode_not4 a = true) : query_addrs addrs = none := by
  induction addrs with
  | nil => rfl
  | cons a rest ih =>
    unfold query_addrs
    rw [try_addr_eq_none_of_mode_not4 a (h a (by simp))]
    exact ih (fun x hx => h x (by simp [hx]))

lemma do_ntp_query_eq_none (env : Option (List AddrOutcome))
    (h : ∀ a ∈ env.getD [], mode_not4 a = true) : do_ntp_query env = none := by
  cases env with
  | none => rfl
  | some addrs => exact query_addrs_eq_none addrs h

lemma run_query_loop_eq_none (envs : List (Option (List AddrOutcome)))
    (h : ∀ env ∈ envs, ∀ a ∈ env.getD [], mode_not4 a = true) :
    run_query_loop envs = none ∧
    resolutions_performed envs = envs.length := by
  induction envs with
  | nil => exact ⟨rfl, rfl⟩
  | cons env rest ih =>
    have hq := do_ntp_query_eq_none env (h env (by simp))
    have ihr := ih (fun e he => h e (by simp [he]))
    constructor
    · unfold run_query_loop
      rw [hq]
      exact ihr.1
    · unfold resolutions_performed
      rw [hq]
      show 1 + resolutions_performed rest = _
      simp only [List.length_cons]
      omega

/-- Any validated remote time plus half an in-range round trip is
representable: the final `checked_add` succeeds. -/
lemma adjust_target_no_overflow (v rtt : Int) (hv0 : 0 ≤ v)
    (hv1 : v ≤ 2085978495999) (h0 : 0 ≤ rtt) (h1 : rtt ≤ 10000) :
    checked_add_i64 v (Int.tdiv rtt 2) = some (v + Int.tdiv rtt 2) := by
  rw [Int.tdiv_eq_ediv h0 (by norm_num)]
  apply checked_add_i64_eq_some
  unfold in_i64
  norm_num
  omega

/-- With a remote time in the validated range, the target-time overflow
branch of the decision sequence is unreachable. -/
lemma decide_adjust_ne_overflowTarget (lb la v : Int) (year : Option Int)
    (t r : Bool) (hv0 : 0 ≤ v) (hv1 : v ≤ 2085978495999) :
    decide_adjust lb la v year t r ≠ .overflowTarget := by
  by_cases hsum : in_i64 (lb + la)
  · rw [decide_adjust_some lb la v year t r hsum]
    cases year with
    | none => split_ifs <;> simp
    | some y =>
      simp only []
      split_ifs with hrtt hthr hy ht hr <;> try simp
      rw [adjust_target_no_overflow v (wrap_i64 (la - lb)) hv0 hv1
        (by omega) (by omega)]
      simp
  · unfold decide_adjust
    rw [checked_add_i64_eq_none hsum]
    simp

/-! ## Claims -/

/-- **C9.** For every 32-bit fraction value `frac`, the code's two-step
conversion `((frac * 1000000) >> 32) / 1000` equals the spec's one-step
conversion `(frac * 1000) >> 32`, and the result is the exact value
`frac * 1000 / 2^32` rounded down, i.e. off by strictly less than 1 ms. -/
theorem c9_two_step_eq_one_step (frac : Nat) (h : frac < 2 ^ 32) :
    usec_of_frac frac / 1000 = frac_ms_spec frac ∧
    2 ^ 32 * frac_ms_spec frac ≤ frac * 1000 ∧
    frac * 1000 < 2 ^ 32 * (frac_ms_spec frac + 1) := by
  unfold usec_of_frac frac_ms_spec
  norm_num
  omega

/-- Witness for C9 at `frac = 2^31` (one half second): both conversions
give 500 ms. -/
theorem c9_witness :
    (2 ^ 31 : Nat) < 2 ^ 32 ∧
    (usec_of_frac (2 ^ 31) / 1000 = frac_ms_spec (2 ^ 31) ∧
     2 ^ 32 * frac_ms_spec (2 ^ 31) ≤ 2 ^ 31 * 1000 ∧
     2 ^ 31 * 1000 < 2 ^ 32 * (frac_ms_spec (2 ^ 31) + 1)) :=
  ⟨by norm_num, c9_two_step_eq_one_step (2 ^ 31) (by norm_num)⟩

/-- **C5.** When the sum `local_before + local_after` is not representable
in `i64`, the run takes the arithmetic-overflow branch (exit code 1) and
never reaches the clock write — the sum is never silently wrapped. -/
theorem c5_avg_overflow_checked (lb la remote : Int) (year : Option Int)
    (t r w : Bool) (hlb : in_i64 lb) (hla : in_i64 la)
    (hsum : ¬ in_i64 (lb + la)) :
    decide_adjust lb la remote year t r = .overflowAvg ∧
    main_exit .overflowAvg w = 1 ∧ writes_clock .overflowAvg = false := by
  refine ⟨?_, rfl, rfl⟩
  unfold decide_adjust
  rw [checked_add_i64_eq_none hsum]

/-- Witness for C5: two timestamps of `2^62` ms each are valid `i64`
values whose sum overflows; the run stops with the overflow outcome. -/
theorem c5_witness :
    (in_i64 (2 ^ 62) ∧ in_i64 (2 ^ 62) ∧ ¬ in_i64 ((2 ^ 62 : Int) + 2 ^ 62)) ∧
    decide_adjust (2 ^ 62) (2 ^ 62) 0 (some 2025) false true = .overflowAvg ∧
    main_exit .overflowAvg false = 1 ∧ writes_clock .overflowAvg = false :=
  ⟨⟨by decide, by decide, by decide⟩,
   c5_avg_overflow_checked (2 ^ 62) (2 ^ 62) 0 (some 2025) false true false
     (by decide) (by decide) (by decide)⟩

/-- **C6.** Whenever the measured round-trip delay is negative or exceeds
10000 ms, the run takes the round-trip sanity branch: exit code 1, no
clock write — for every offset, year, flag and privilege value. -/
theorem c6_delay_out_of_range (lb la remote : Int) (year : Option Int)
    (t r w : Bool) (hsum : in_i64 (lb + la))
    (hrtt : wrap_i64 (la - lb) < 0 ∨ 10000 < wrap_i64 (la - lb)) :
    decide_adjust lb la remote year t r = .delayOutOfRange ∧
    main_exit .delayOutOfRange w = 1 ∧
    writes_clock .delayOutOfRange = false := by
  refine ⟨?_, rfl, rfl⟩
  unfold decide_adjust
  rw [checked_add_i64_eq_some hsum]
  exact if_pos hrtt

/-- Witness for C6: a 15000 ms round trip (local before 0, local after
15000) is rejected by the sanity check. -/
theorem c6_witness :
    (in_i64 ((0 : Int) + 15000) ∧
     (wrap_i64 ((15000 : Int) - 0) < 0 ∨ 10000 < wrap_i64 ((15000 : Int) - 0))) ∧
    decide_adjust 0 15000 7500 (some 2025) false true = .delayOutOfRange ∧
    main_exit .delayOutOfRange false = 1 ∧
    writes_clock .delayOutOfRange = false :=
  ⟨⟨by decide, by decide⟩,
   c6_delay_out_of_range 0 15000 7500 (some 2025) false true false
     (by decide) (by decide)⟩

/-- **C1 counterexample.** At the spec's own vector T1=1000, T3=2100,
T4=1300 the code computes round-trip 300 and offset 950, not the claimed
delay 200 and offset 900: the code never uses the server-receive
timestamp T2, so the four-timestamp formulas do not describe it. -/
theorem c1_counterexample :
    compute_offsets 1000 2100 1300 = some (300, 950) ∧
    compute_offsets 1000 2100 1300 ≠ some (200, 900) := by
  decide

/-- **C1 (amended).** The program computes round-trip `T4 - T1` and
offset `T3 - (T1 + T4) / 2` from the local send time T1, the server
transmit time T3 and the local receive time T4 only; the reply's
receive-timestamp field (bytes 32-39, T2) is never read — two replies
agreeing on byte 0, byte 1 and bytes 40-47 decode identically. -/
theorem c1_amended (lb remote la : Int) (hsum : in_i64 (lb + la))
    (hrtt : in_i64 (la - lb))
    (hoff : in_i64 (remote - Int.tdiv (lb + la) 2)) :
    compute_offsets lb remote la =
      some (la - lb, remote - Int.tdiv (lb + la) 2) ∧
    ∀ (size : Nat) (buf buf2 : List Nat),
      buf.getD 0 0 = buf2.getD 0 0 → buf.getD 1 0 = buf2.getD 1 0 →
      (∀ i, 40 ≤ i → i ≤ 47 → buf.getD i 0 = buf2.getD i 0) →
      decode_reply size buf = decode_reply size buf2 := by
  constructor
  · unfold compute_offsets
    rw [checked_add_i64_eq_some hsum]
    show some (wrap_i64 (la - lb), wrap_i64 (remote - Int.tdiv (lb + la) 2)) = _
    rw [wrap_i64_eq_self hrtt, wrap_i64_eq_self hoff]
  · intro size buf buf2 h0 h1 h40
    unfold decode_reply
    rw [h0, h1, h40 40 (by norm_num) (by norm_num),
      h40 41 (by norm_num) (by norm_num), h40 42 (by norm_num) (by norm_num),
      h40 43 (by norm_num) (by norm_num), h40 44 (by norm_num) (by norm_num),
      h40 45 (by norm_num) (by norm_num), h40 46 (by norm_num) (by norm_num),
      h40 47 (by norm_num) (by norm_num)]

/-- Witness for the amended C1 at the spec's vector: round-trip
`1300 - 1000 = 300` and offset `2100 - 2300/2 = 950`. -/
theorem c1_amended_witness :
    compute_offsets 1000 2100 1300 =
      some (1300 - 1000, 2100 - Int.tdiv (1000 + 1300) 2) :=
  (c1_amended 1000 2100 1300 (by decide) (by decide) (by decide)).1

/-- **C4 counterexample.** The encoded request leaves bytes 40-47 (the
transmit-timestamp field) all zero — it never writes the sampled transmit
timestamp; the field does not even decode as a valid post-1970 time. -/
theorem c4_counterexample :
    build_ntp_request.getD 0 0 = 0x23 ∧
    (build_ntp_request.drop 40).take 8 = List.replicate 8 0 ∧
    ntp_ts_to_unix_ms ((build_ntp_request.drop 40).take 8) = none := by
  decide

/-- **C4 (amended).** The encoded request packet is 48 octets, sets byte 0
to `0x23` (LI=0, version=4, mode=3), and leaves every other byte zero —
including the transmit-timestamp field, into which no timestamp is
written. -/
theorem c4_amended (i : Nat) (h1 : 1 ≤ i) (h2 : i < 48) :
    build_ntp_request.length = 48 ∧
    build_ntp_request.getD 0 0 = 0x23 ∧
    build_ntp_request.getD i 0 = 0 := by
  refine ⟨by decide, by decide, ?_⟩
  interval_cases i <;> decide

/-- Witness for the amended C4 at byte 40 (first transmit-timestamp
byte). -/
theorem c4_amended_witness :
    (1 ≤ 40 ∧ 40 < 48) ∧
    (build_ntp_request.length = 48 ∧
     build_ntp_request.getD 0 0 = 0x23 ∧
     build_ntp_request.getD 40 0 = 0) :=
  ⟨by decide, c4_amended 40 (by decide) (by decide)⟩

/-- **C7 counterexample.** A run of three attempts whose name resolution
yields no addresses every time performs three resolutions — one per
attempt, not one per run — and ends in query exhaustion (exit 2) rather
than failing fatally at a single up-front resolution step. -/
theorem c7_counterexample :
    resolutions_performed [some [], some [], some []] = 3 ∧
    resolutions_performed [some [], some [], some []] ≠ 1 ∧
    run_main [some [], some [], some []] (fun _ => some 2025) false false =
      .queryExhausted ∧
    run_exit .queryExhausted false = 2 := by
  refine ⟨rfl, by decide, rfl, rfl⟩

/-- **C7 (amended).** Name resolution happens inside every attempt: each
`do_ntp_query` call resolves the server name anew.  An attempt whose
resolution errors (`none`) or yields no addresses (`some []`) fails only
that attempt — the retry loop moves on to the next attempt, and each such
attempt still counts one resolution. -/
theorem c7_amended :
    do_ntp_query (none : Option (List AddrOutcome)) = none ∧
    do_ntp_query (some ([] : List AddrOutcome)) = none ∧
    ∀ rest : List (Option (List AddrOutcome)),
      run_query_loop (none :: rest) = run_query_loop rest ∧
      run_query_loop (some [] :: rest) = run_query_loop rest ∧
      resolutions_performed (none :: rest) = 1 + resolutions_performed rest ∧
      resolutions_performed (some [] :: rest) = 1 + resolutions_performed rest :=
  ⟨rfl, rfl, fun _ => ⟨rfl, rfl, rfl, rfl⟩⟩

/-- **C2 counterexample.** With local times before = after = remote =
1751328000000 ms (2025-07-01T00:00:00Z, a mid-year instant whose
chrono-derived calendar year is 2025 in every timezone, since no UTC
offset within ±14 h can move it across a year boundary) the offset is
exactly zero, yet the run does not stop: it falls through the threshold
check, passes the year check, and (not test-only, running as root)
reaches the clock write.  A zero offset does not result in "no clock
write". -/
theorem c2_counterexample :
    wrap_i64 (1751328000000 -
      Int.tdiv (1751328000000 + 1751328000000) 2) = 0 ∧
    decide_adjust 1751328000000 1751328000000 1751328000000
      (some 2025) false true = .adjust 1751328000000 ∧
    writes_clock (decide_adjust 1751328000000 1751328000000 1751328000000
      (some 2025) false true) = true := by
  refine ⟨by decide, by decide, by decide⟩

/-- **C2 (amended).** When the round trip is sane, a nonzero offset whose
absolute value is below 500 ms makes the run skip adjustment and exit 0
with no clock write; but an offset of exactly zero is *not* caught by this
check — the run falls through to the remaining checks (and, if they all
pass, to the clock write). -/
theorem c2_amended (lb la remote : Int) (year : Option Int) (t r w : Bool)
    (hsum : in_i64 (lb + la))
    (hrtt0 : 0 ≤ wrap_i64 (la - lb)) (hrtt1 : wrap_i64 (la - lb) ≤ 10000) :
    (0 < |wrap_i64 (remote - Int.tdiv (lb + la) 2)| ∧
       |wrap_i64 (remote - Int.tdiv (lb + la) 2)| < 500 →
      decide_adjust lb la remote year t r = .belowThreshold ∧
      main_exit .belowThreshold w = 0 ∧
      writes_clock .belowThreshold = false) ∧
    (wrap_i64 (remote - Int.tdiv (lb + la) 2) = 0 →
      decide_adjust lb la remote year t r ≠ .belowThreshold) := by
  have hnot : ¬ (wrap_i64 (la - lb) < 0 ∨ 10000 < wrap_i64 (la - lb)) := by
    omega
  constructor
  · intro hoff
    have habs : abs_i64 (wrap_i64 (remote - Int.tdiv (lb + la) 2)) =
        |wrap_i64 (remote - Int.tdiv (lb + la) 2)| :=
      abs_i64_eq_abs (lt_trans hoff.2 (by norm_num))
    refine ⟨?_, rfl, rfl⟩
    rw [decide_adjust_some lb la remote year t r hsum, if_neg hnot,
      if_pos (by rw [habs]; exact hoff)]
  · intro h0
    rw [decide_adjust_some lb la remote year t r hsum, if_neg hnot, h0,
      if_neg (by simp [abs_i64_zero])]
    cases year with
    | none => simp
    | some y =>
      simp only []
      split_ifs <;> try simp
      cases checked_add_i64 remote (Int.tdiv (wrap_i64 (la - lb)) 2) <;> simp

/-- Witness for the amended C2: offset 300 ms with a zero round trip is
skipped with exit 0 and no clock write. -/
theorem c2_witness :
    decide_adjust 0 0 300 (some 2025) false true = .belowThreshold ∧
    main_exit .belowThreshold false = 0 ∧
    writes_clock .belowThreshold = false :=
  (c2_amended 0 0 300 (some 2025) false true false (by decide) (by decide)
    (by decide)).1 (by decide)

/-- **C3.** A received reply is accepted exactly when it is at least 48
octets long, its mode (low 3 bits of byte 0) is 4, its stratum byte is
nonzero, its version (bits 3-5 of byte 0) lies in [1,4], and its transmit
timestamp's seconds field is at least 2208988800; and any failed
validation only fails that address attempt / that retry-loop iteration,
never the whole run. -/
theorem c3_reply_validation :
    (∀ (size : Nat) (buf : List Nat),
      (decode_reply size buf).isSome ↔
        48 ≤ size ∧ buf.getD 0 0 % 8 = 4 ∧ buf.getD 1 0 ≠ 0 ∧
        (1 ≤ buf.getD 0 0 / 8 % 8 ∧ buf.getD 0 0 / 8 % 8 ≤ 4) ∧
        NTP_UNIX_EPOCH_DIFF ≤
          be32 (buf.getD 40 0) (buf.getD 41 0) (buf.getD 42 0)
            (buf.getD 43 0)) ∧
    (∀ (size : Nat) (buf : List Nat) (beforeMs afterMs : Option Int)
        (rest : List AddrOutcome),
      decode_reply size buf = none →
      query_addrs (.recv size buf beforeMs afterMs :: rest) =
        query_addrs rest) ∧
    (∀ (env : Option (List AddrOutcome))
        (rest : List (Option (List AddrOutcome))),
      do_ntp_query env = none →
      run_query_loop (env :: rest) = run_query_loop rest) := by
  refine ⟨?_, ?_, ?_⟩
  · intro size buf
    unfold decode_reply
    rw [ntp_ts_explicit]
    by_cases h1 : size < 48
    · rw [if_pos h1]
      simp only [Option.isSome_none, Bool.false_eq_true, false_iff]
      rintro ⟨hs, -⟩
      omega
    rw [if_neg h1]
    by_cases h2 : buf.getD 0 0 % 8 ≠ 4
    · rw [if_pos h2]
      simp only [Option.isSome_none, Bool.false_eq_true, false_iff]
      rintro ⟨-, hm, -⟩
      exact h2 hm
    rw [if_neg h2, not_not] at *
    by_cases h3 : buf.getD 1 0 = 0
    · rw [if_pos h3]
      simp only [Option.isSome_none, Bool.false_eq_true, false_iff]
      rintro ⟨-, -, hs, -⟩
      exact hs h3
    rw [if_neg h3]
    by_cases h4 : ¬(1 ≤ buf.getD 0 0 / 8 % 8 ∧ buf.getD 0 0 / 8 % 8 ≤ 4)
    · rw [if_pos h4]
      simp only [Option.isSome_none, Bool.false_eq_true, false_iff]
      rintro ⟨-, -, -, hv, -⟩
      exact h4 hv
    rw [if_neg h4, not_not] at *
    by_cases h5 : be32 (buf.getD 40 0) (buf.getD 41 0) (buf.getD 42 0)
        (buf.getD 43 0) < NTP_UNIX_EPOCH_DIFF
    · rw [if_pos h5]
      simp only [Option.isSome_none, Bool.false_eq_true, false_iff]
      rintro ⟨-, -, -, -, hts⟩
      omega
    · rw [if_neg h5]
      simp only [Option.isSome_some, eq_self_iff_true, true_iff]
      exact ⟨by omega, h2, h3, h4, by omega⟩
  · intro size buf beforeMs afterMs rest hd
    simp only [query_addrs, try_addr, hd]
  · intro env rest hq
    simp only [run_query_loop, hq]

/-- Witness for C3: a 47-octet datagram is rejected (failing only its own
attempt), and a failed attempt lets the retry loop continue. -/
theorem c3_witness :
    query_addrs (.recv 47 (List.replicate 48 0x24) none none ::
      ([] : List AddrOutcome)) = query_addrs [] ∧
    run_query_loop [some []] = run_query_loop [] :=
  ⟨(c3_reply_validation).2.1 47 (List.replicate 48 0x24) none none []
      (by decide),
   (c3_reply_validation).2.2 (some []) [] (by decide)⟩

/-- **C8.** When every reply across all attempts has mode ≠ 4 (or the
attempt fails at the socket), the run executes exactly one query per
configured attempt, ends in query exhaustion with exit code 2 — distinct
from the success (0), sanity-failure (1) and clock-write-failure (10)
codes — and never reaches a clock write. -/
theorem c8_query_exhaustion (envs : List (Option (List AddrOutcome)))
    (yearOf : Int → Option Int) (t r : Bool)
    (h : ∀ env ∈ envs, ∀ a ∈ env.getD [], mode_not4 a = true) :
    run_main envs yearOf t r = .queryExhausted ∧
    resolutions_performed envs = envs.length ∧
    ∀ w : Bool,
      run_exit .queryExhausted w = 2 ∧
      run_writes_clock .queryExhausted = false ∧
      run_exit .queryExhausted w ≠ main_exit .belowThreshold w ∧
      run_exit .queryExhausted w ≠ main_exit .overflowAvg w ∧
      ∀ target : Int,
        run_exit .queryExhausted w ≠ main_exit (.adjust target) w := by
  obtain ⟨h1, h2⟩ := run_query_loop_eq_none envs h
  refine ⟨?_, h2, ?_⟩
  · unfold run_main
    rw [h1]
  · intro w
    refine ⟨rfl, rfl, ?_, ?_, fun target => ?_⟩ <;>
      cases w <;> simp [run_exit, main_exit]

/-- Witness for C8: two attempts — a mode-1 reply, then a resolution
failure — exhaust the run with exit code 2 and no clock write. -/
theorem c8_witness :
    run_main [some [AddrOutcome.recv 48 (List.replicate 48 1) none none],
        none] (fun _ => none) false false = .queryExhausted ∧
    resolutions_performed
        [some [AddrOutcome.recv 48 (List.replicate 48 1) none none],
         none] =
      ([some [AddrOutcome.recv 48 (List.replicate 48 1) none none],
        (none : Option (List AddrOutcome))]).length ∧
    ∀ w : Bool,
      run_exit .queryExhausted w = 2 ∧
      run_writes_clock .queryExhausted = false ∧
      run_exit .queryExhausted w ≠ main_exit .belowThreshold w ∧
      run_exit .queryExhausted w ≠ main_exit .overflowAvg w ∧
      ∀ target : Int,
        run_exit .queryExhausted w ≠ main_exit (.adjust target) w :=
  c8_query_exhaustion
    [some [AddrOutcome.recv 48 (List.replicate 48 1) none none], none]
    (fun _ => none) false false (by decide)

/-- **C10.** For every 8-byte timestamp whose seconds field is at least
2208988800, decoding succeeds with a value in
`[0, (2^32-1-2208988800)*1000+999]`, none of the `u64` steps wraps, and
adding half of any round-trip delay in [0,10000] via `checked_add` always
succeeds — the target-time overflow branch is unreachable. -/
theorem c10_validated_timestamp_safe (b0 b1 b2 b3 b4 b5 b6 b7 : Nat)
    (hb : b0 < 256 ∧ b1 < 256 ∧ b2 < 256 ∧ b3 < 256 ∧
          b4 < 256 ∧ b5 < 256 ∧ b6 < 256 ∧ b7 < 256)
    (hsec : NTP_UNIX_EPOCH_DIFF ≤ be32 b0 b1 b2 b3) :
    ∃ v : Int,
      ntp_ts_to_unix_ms [b0, b1, b2, b3, b4, b5, b6, b7] = some v ∧
      0 ≤ v ∧ v ≤ (2 ^ 32 - 1 - 2208988800) * 1000 + 999 ∧
      be32 b4 b5 b6 b7 * 1000000 < 2 ^ 64 ∧
      (be32 b0 b1 b2 b3 - NTP_UNIX_EPOCH_DIFF) * 1000 +
        usec_of_frac (be32 b4 b5 b6 b7) / 1000 < 2 ^ 63 ∧
      (∀ d : Int, 0 ≤ d → d ≤ 10000 →
        checked_add_i64 v (Int.tdiv d 2) = some (v + Int.tdiv d 2)) ∧
      ∀ (lb la : Int) (year : Option Int) (t r : Bool),
        decide_adjust lb la v year t r ≠ .overflowTarget := by
  obtain ⟨hb0, hb1, hb2, hb3, hb4, hb5, hb6, hb7⟩ := hb
  have hdiff : NTP_UNIX_EPOCH_DIFF = 2208988800 := rfl
  have hs32 : be32 b0 b1 b2 b3 < 4294967296 := by unfold be32; omega
  have hf32 : be32 b4 b5 b6 b7 < 4294967296 := by unfold be32; omega
  have husec : usec_of_frac (be32 b4 b5 b6 b7) < 1000000 := by
    unfold usec_of_frac
    rw [Nat.mod_eq_of_lt (show be32 b4 b5 b6 b7 * 1000000 < 2 ^ 64 by omega)]
    omega
  have hfracmul : be32 b4 b5 b6 b7 * 1000000 < 2 ^ 64 := by omega
  have hvmax : (be32 b0 b1 b2 b3 - NTP_UNIX_EPOCH_DIFF) * 1000 +
      usec_of_frac (be32 b4 b5 b6 b7) / 1000 ≤ 2085978495999 := by
    omega
  have hv63 : (be32 b0 b1 b2 b3 - NTP_UNIX_EPOCH_DIFF) * 1000 +
      usec_of_frac (be32 b4 b5 b6 b7) / 1000 < 2 ^ 63 := by
    omega
  refine ⟨(((be32 b0 b1 b2 b3 - NTP_UNIX_EPOCH_DIFF) * 1000 +
      usec_of_frac (be32 b4 b5 b6 b7) / 1000 : Nat) : Int),
    ?_, Int.natCast_nonneg _, ?_, hfracmul, hv63, ?_, ?_⟩
  · rw [ntp_ts_explicit, if_neg (by omega), Nat.mod_eq_of_lt (by omega)]
    unfold u64_as_i64
    rw [if_pos hv63]
  · push_cast
    omega
  · intro d hd0 hd1
    exact adjust_target_no_overflow _ d (Int.natCast_nonneg _)
      (by push_cast; omega) hd0 hd1
  · intro lb la year t r
    exact decide_adjust_ne_overflowTarget lb la _ year t r
      (Int.natCast_nonneg _) (by push_cast; omega)

/-- Witness for C10 at the earliest valid timestamp (seconds field
exactly 2208988800, zero fraction). -/
theorem c10_witness :
    ∃ v : Int,
      ntp_ts_to_unix_ms [0x83, 0xAA, 0x7E, 0x80, 0, 0, 0, 0] = some v ∧
      0 ≤ v ∧ v ≤ (2 ^ 32 - 1 - 2208988800) * 1000 + 999 ∧
      be32 0 0 0 0 * 1000000 < 2 ^ 64 ∧
      (be32 0x83 0xAA 0x7E 0x80 - NTP_UNIX_EPOCH_DIFF) * 1000 +
        usec_of_frac (be32 0 0 0 0) / 1000 < 2 ^ 63 ∧
      (∀ d : Int, 0 ≤ d → d ≤ 10000 →
        checked_add_i64 v (Int.tdiv d 2) = some (v + Int.tdiv d 2)) ∧
      ∀ (lb la : Int) (year : Option Int) (t r : Bool),
        decide_adjust lb la v year t r ≠ .overflowTarget :=
  c10_validated_timestamp_safe 0x83 0xAA 0x7E 0x80 0 0 0 0
    (by decide) (by decide)

end Timesync
